import Mathlib

/-!
Verification of the SIGMArec detection-and-control engine.

This file gives a shallow embedding of the engine's core data structures and
operations, translated from the Python sources:

* `src/detection/state_machine.py` — bounded-history state machine with
  transition-pattern matching (`StateMachine`, `TransitionPattern`);
* `src/detection/detectors/base.py` — the debounce detector
  (`BaseStateDetector.detect_state`);
* `src/detection/engine/state_manager.py` — transition creation, the
  registered pattern table, and the LogGame Playing-timestamp restart logic;
* `src/games/objects/log.py` and `src/games/objects/games.py` — log pattern
  matching and the latest-match-wins log state classifier;
* `src/detection/processors/recording_processor.py` and
  `src/detection/engine/coordinator.py` — the recording flag/intent logic and
  the recording-completion fan-out;
* `src/config/settings.py` (`get_scene_name`) and
  `src/detection/processors/scene_processor.py` — scene resolution and
  idempotent scene switching.

External effects (OBS requests, sounds, file deletion, thread spawns) are
embedded as explicit action lists; log-file reads are passed in as the list of
entries the `LogService` returns on the tick under consideration; wall-clock
timestamps on transitions are omitted (no claim mentions them).
-/

/-- The wildcard token of `state_machine.py` (`WILDCARD = "*"`): it matches any
single state inside a transition pattern's sequence. -/
def WILDCARD : String := "*"

/-- A named transition pattern (`state_machine.py`, class `TransitionPattern`):
a name plus the token sequence matched against the trailing slice of the
history. -/
structure TransitionPattern where
  name : String
  sequence : List String
deriving DecidableEq

/-- The mutable fields of `state_machine.py`'s `StateMachine`:
`_max_history`, `_history`, `_patterns`, `_last_matches`. -/
structure StateMachine where
  max_history : Nat
  history : List String
  patterns : List TransitionPattern
  last_matches : List String
deriving DecidableEq

/-- `StateMachine.__init__`: `self._max_history = max(2, max_history)`, all
lists empty. -/
def StateMachine.mk0 (max_history : Nat) : StateMachine :=
  { max_history := max 2 max_history, history := [], patterns := [],
    last_matches := [] }

/-- `StateMachine.add_pattern`: patterns with an empty sequence are refused. -/
def StateMachine.add_pattern (sm : StateMachine) (p : TransitionPattern) :
    StateMachine :=
  if p.sequence = [] then sm else { sm with patterns := sm.patterns ++ [p] }

/-- `StateMachine.add_patterns`: add each pattern in order. -/
def StateMachine.add_patterns (sm : StateMachine)
    (ps : List TransitionPattern) : StateMachine :=
  ps.foldl StateMachine.add_pattern sm

/-- `StateMachine._history_ends_with`: the pattern sequence is compared with
the trailing slice of the history of equal length; shorter histories never
match; a token matches by equality or by being the wildcard. -/
def history_ends_with (history sequence : List String) : Bool :=
  if history.length < sequence.length then false
  else
    let start_index := history.length - sequence.length
    (List.range sequence.length).all fun i =>
      (sequence.getD i "" == WILDCARD) ||
        (sequence.getD i "" == history.getD (start_index + i) "")

/-- `StateMachine._match_tail_patterns`: names of all registered patterns whose
sequence matches the tail of the history. -/
def StateMachine.match_tail_patterns (sm : StateMachine) : List String :=
  (sm.patterns.filter fun p => history_ends_with sm.history p.sequence).map
    TransitionPattern.name

/-- `StateMachine.push_state`: a push equal to the current top clears
`_last_matches` and leaves the history alone; otherwise the state is appended,
the history trimmed to the last `_max_history` entries, and the tail matches
recomputed. -/
def StateMachine.push_state (sm : StateMachine) (new_state : String) :
    StateMachine :=
  if sm.history.getLast? = some new_state then
    { sm with last_matches := [] }
  else
    let h := sm.history ++ [new_state]
    let h := if sm.max_history < h.length then h.drop (h.length - sm.max_history)
             else h
    let sm' := { sm with history := h }
    { sm' with last_matches := sm'.match_tail_patterns }

/-- `StateMachine.get_last_matches`. -/
def StateMachine.get_last_matches (sm : StateMachine) : List String :=
  sm.last_matches

/-- `StateMachine.clear`. -/
def StateMachine.clear (sm : StateMachine) : StateMachine :=
  { sm with history := [], last_matches := [] }

/-- The fixed pattern table registered by
`StateManager._setup_transition_patterns` (`engine/state_manager.py`). -/
def transition_patterns : List TransitionPattern :=
  [⟨"start_play", ["Select", "Playing"]⟩,
   ⟨"start_play", ["Select", "Unknown", "Playing"]⟩,
   ⟨"start_play", ["Result", "Unknown", "Playing"]⟩,
   ⟨"discard_play", ["Playing", "Select"]⟩,
   ⟨"discard_play", ["Playing", "Unknown", "Select"]⟩,
   ⟨"stop_play", ["Playing", "Result"]⟩,
   ⟨"stop_play", ["Playing", "Unknown", "Result"]⟩,
   ⟨"restart", ["Playing", "Unknown", "Playing"]⟩,
   ⟨"restart", ["Playing", "Playing"]⟩]

/-- The detector state of `detectors/base.py` (`BaseStateDetector`):
`detection_threshold`, `_consecutive_detections`, `_last_detected_state`. -/
structure BaseStateDetector where
  detection_threshold : Nat
  consecutive_detections : Nat
  last_detected_state : Option String
deriving DecidableEq

/-- `BaseStateDetector.__init__` with the given threshold (Python default 2):
counter 0, no remembered raw value. -/
def BaseStateDetector.mk0 (detection_threshold : Nat) : BaseStateDetector :=
  ⟨detection_threshold, 0, none⟩

/-- `BaseStateDetector.detect_state`, with the abstract
`_detect_raw_state(game)` result passed in as `raw_state`: a changed raw value
resets the counter to 1, an unchanged one increments it, and the raw value is
returned whenever the counter has reached the threshold. -/
def detect_state (d : BaseStateDetector) (raw_state : Option String) :
    Option String × BaseStateDetector :=
  let d :=
    if raw_state ≠ d.last_detected_state then
      { d with last_detected_state := raw_state, consecutive_detections := 1 }
    else
      { d with consecutive_detections := d.consecutive_detections + 1 }
  if d.detection_threshold ≤ d.consecutive_detections then (raw_state, d)
  else (none, d)

/-- Iterate `detect_state` over a sequence of per-tick raw observations,
collecting the per-tick return values. -/
def detect_run (d : BaseStateDetector) : List (Option String) →
    List (Option String)
  | [] => []
  | r :: rs =>
    let p := detect_state d r
    p.1 :: detect_run p.2 rs

/-- The run length of identical raw values at each tick, continuing a run of
length `count` on the value `last`: a changed value restarts at 1, an unchanged
one increments. -/
def run_lengths (last : Option String) (count : Nat) :
    List (Option String) → List Nat
  | [] => []
  | r :: rs =>
    let c := if r ≠ last then 1 else count + 1
    c :: run_lengths r c rs

/-- Helper: a push whose state equals the current top leaves the history alone
and clears the match list. -/
theorem push_state_dup_eq (sm : StateMachine) (s : String)
    (hdup : sm.history.getLast? = some s) :
    (sm.push_state s).history = sm.history ∧
      (sm.push_state s).last_matches = [] := by
  unfold StateMachine.push_state
  simp [hdup]

/-- Helper: after any push the pushed state is the top of the history, as long
as the machine keeps at least one entry (the constructor enforces
`max_history ≥ 2`). -/
theorem push_state_getLast (sm : StateMachine) (s : String)
    (h1 : 1 ≤ sm.max_history) :
    (sm.push_state s).history.getLast? = some s := by
  unfold StateMachine.push_state
  by_cases hdup : sm.history.getLast? = some s
  · simp [hdup]
  · rw [if_neg hdup]
    dsimp only
    split
    · rw [List.drop_append_eq_append_drop]
      have h0 : (sm.history ++ [s]).length - sm.max_history - sm.history.length = 0 := by
        simp only [List.length_append, List.length_cons, List.length_nil]
        omega
      rw [h0, List.drop_zero, List.getLast?_concat]
    · rw [List.getLast?_concat]

/-- C1 counterexample: with threshold 2, the raw sequence
`[Playing, Playing, Playing]` makes `detect_state` return `Playing` on the
second tick and again on the third tick of the same unchanged run, so a
detection is not emitted only on the tick where the run first reaches the
threshold. -/
theorem detect_state_reemits_after_threshold :
    detect_run (BaseStateDetector.mk0 2)
        [some "Playing", some "Playing", some "Playing"] =
      [none, some "Playing", some "Playing"] ∧
    (detect_run (BaseStateDetector.mk0 2)
        [some "Playing", some "Playing", some "Playing"]).getD 2 none ≠ none := by
  decide

/-- C1 (amended): on every tick the debounce detector returns the raw value iff
the current run of identical raw values has length at least the threshold —
first on the tick where the run reaches the threshold, and again on every later
tick of the unchanged run (deduplication of the resulting transition happens
downstream in `StateManager.update_state`). -/
theorem detect_run_threshold_spec (t c : Nat) (l : Option String)
    (rs : List (Option String)) :
    detect_run ⟨t, c, l⟩ rs =
      (rs.zip (run_lengths l c rs)).map fun p => if t ≤ p.2 then p.1 else none := by
  induction rs generalizing c l with
  | nil => rfl
  | cons r rs ih =>
    by_cases h : r = l
    · subst h
      by_cases ht : t ≤ c + 1
      · simp [detect_run, detect_state, run_lengths, ht, ih]
      · simp [detect_run, detect_state, run_lengths, ht, ih]
    · by_cases ht : t ≤ 1
      · simp [detect_run, detect_state, run_lengths, h, ht, ih]
      · simp [detect_run, detect_state, run_lengths, h, ht, ih]

/-- C1 witness: instantiating the amended theorem at threshold 2, a fresh
detector and the run `[Playing, Playing, Playing]`. -/
theorem detect_run_threshold_spec_witness :
    detect_run ⟨2, 0, none⟩ [some "Playing", some "Playing", some "Playing"] =
      ([some "Playing", some "Playing", some "Playing"].zip
          (run_lengths none 0 [some "Playing", some "Playing", some "Playing"])).map
        fun p => if 2 ≤ p.2 then p.1 else none :=
  detect_run_threshold_spec 2 0 none [some "Playing", some "Playing", some "Playing"]

/-- C3: pushing the state that is already the top of the history leaves the
history unchanged and makes `get_last_matches` report no triggered patterns;
in particular the second of two consecutive identical pushes never re-triggers
a pattern match (the machine keeps at least one history entry, which the
constructor's `max(2, max_history)` guarantees). -/
theorem push_state_duplicate_no_op (sm : StateMachine) (s : String)
    (h1 : 1 ≤ sm.max_history) :
    (sm.history.getLast? = some s →
      (sm.push_state s).history = sm.history ∧
        (sm.push_state s).get_last_matches = []) ∧
    ((sm.push_state s).push_state s).history = (sm.push_state s).history ∧
    ((sm.push_state s).push_state s).get_last_matches = [] := by
  have h2 := push_state_dup_eq (sm.push_state s) s (push_state_getLast sm s h1)
  exact ⟨fun hdup => push_state_dup_eq sm s hdup, h2.1, h2.2⟩

/-- C3 witness: the theorem applied to a standard three-entry machine and the
state name `Playing`. -/
theorem push_state_duplicate_no_op_witness :
    ((StateMachine.mk0 3).history.getLast? = some "Playing" →
      ((StateMachine.mk0 3).push_state "Playing").history =
          (StateMachine.mk0 3).history ∧
        ((StateMachine.mk0 3).push_state "Playing").get_last_matches = []) ∧
    (((StateMachine.mk0 3).push_state "Playing").push_state "Playing").history =
      ((StateMachine.mk0 3).push_state "Playing").history ∧
    (((StateMachine.mk0 3).push_state "Playing").push_state
        "Playing").get_last_matches = [] :=
  push_state_duplicate_no_op (StateMachine.mk0 3) "Playing" (by decide)

/-- C4: transition-pattern matching compares the pattern's token sequence with
the trailing slice of the history of equal length — shorter histories never
match, and each token matches by exact equality or by being the wildcard; and
with the registered pattern table, a history ending `[Select, Unknown]`
followed by a push of `Playing` matches `start_play` and matches neither
`stop_play` nor `discard_play`. -/
theorem tail_pattern_matching_spec :
    (∀ history sequence : List String,
        history_ends_with history sequence = true ↔
          sequence.length ≤ history.length ∧
            ∀ i < sequence.length,
              sequence.getD i "" = WILDCARD ∨
                sequence.getD i "" =
                  history.getD (history.length - sequence.length + i) "") ∧
    (let sm := ((((StateMachine.mk0 3).add_patterns transition_patterns).push_state
        "Select").push_state "Unknown").push_state "Playing"
     "start_play" ∈ sm.get_last_matches ∧ "stop_play" ∉ sm.get_last_matches ∧
       "discard_play" ∉ sm.get_last_matches) := by
  constructor
  · intro history sequence
    by_cases hl : history.length < sequence.length
    · have : history_ends_with history sequence = false := by
        simp [history_ends_with, hl]
      rw [this]
      simp only [Bool.false_eq_true, false_iff]
      exact fun h => absurd h.1 (by omega)
    · have hle : sequence.length ≤ history.length := Nat.le_of_not_lt hl
      simp [history_ends_with, hl, hle]
  · decide

/-- The observable side effects of `RecordingProcessor`
(`processors/recording_processor.py`) and of the coordinator's
`on_recording_stopped` handler: OBS start/stop requests, the deferred start
spawned while a scene-change delay is pending, the `result_wait` sleep before a
kept stop, sound cues, the background file deletion, and the hand-off of a kept
file to the recording manager (`recording_manager.handle_recording_completed`). -/
inductive RecAction where
  | start_request : RecAction
  | delayed_start : RecAction
  | stop_request : RecAction
  | sleep_result_wait : RecAction
  | play_sound (name : String) : RecAction
  | delete_file (path : String) : RecAction
  | finalize_recording (path : String) : RecAction
deriving DecidableEq

/-- The two intent flags of `RecordingProcessor`:
`_delete_next_recording` and `_restart_after_stop`. -/
structure RecordingProcessor where
  delete_next_recording : Bool
  restart_after_stop : Bool
deriving DecidableEq

/-- `RecordingProcessor._start_recording`, with the scene processor's
`get_recording_delay_remaining()` passed in as `delay_remaining`: a positive
delay defers the physical start to a background timer, otherwise the start cue
plays and the start request is issued immediately. -/
def start_recording (delay_remaining : Nat) : List RecAction :=
  if 0 < delay_remaining then [RecAction.delayed_start]
  else [RecAction.play_sound "start", RecAction.start_request]

/-- `RecordingProcessor._stop_recording`: a non-immediate stop first sleeps
`result_wait`; an optional sound cue plays; then the stop request is issued. -/
def stop_recording (immediate : Bool) (sound : Option String) : List RecAction :=
  (if immediate then [] else [RecAction.sleep_result_wait]) ++
    (match sound with
     | some s => [RecAction.play_sound s]
     | none => []) ++ [RecAction.stop_request]

/-- `RecordingProcessor.process_transition`, with `obs.recording_active` passed
in as `recording_active`: the guards are checked in source order — `restart`,
then `start_play`, then `discard_play`, then `stop_play`. -/
def process_transition (rp : RecordingProcessor)
    (triggered_patterns : List String) (recording_active : Bool)
    (delay_remaining : Nat) : RecordingProcessor × List RecAction :=
  if "restart" ∈ triggered_patterns ∧ recording_active = true then
    ({ delete_next_recording := true, restart_after_stop := true },
     stop_recording true none)
  else if "start_play" ∈ triggered_patterns ∧ recording_active = false then
    (rp, start_recording delay_remaining)
  else if "discard_play" ∈ triggered_patterns ∧ recording_active = true then
    ({ delete_next_recording := true, restart_after_stop := false },
     stop_recording true (some "failed"))
  else if "stop_play" ∈ triggered_patterns ∧ recording_active = true then
    (rp, stop_recording false none)
  else (rp, [])

/-- `RecordingProcessor.handle_recording_completed`: read and clear
`_delete_next_recording`; if `_restart_after_stop` was set, clear it and start
a new recording; if the old flag was set, delete the file on a background
thread; return whether the recording was deleted. -/
def handle_recording_completed (rp : RecordingProcessor) (output_path : String)
    (delay_remaining : Nat) : RecordingProcessor × List RecAction × Bool :=
  let should_delete := rp.delete_next_recording
  let rp1 : RecordingProcessor :=
    { rp with delete_next_recording := false }
  let p :=
    if rp1.restart_after_stop then
      (({ rp1 with restart_after_stop := false } : RecordingProcessor),
       start_recording delay_remaining)
    else (rp1, ([] : List RecAction))
  (p.1,
   p.2 ++ (if should_delete then [RecAction.delete_file output_path] else []),
   should_delete)

/-- `DetectionCoordinator.on_recording_stopped` (`engine/coordinator.py`): the
recording processor handles completion first; only when it did not discard the
file is it handed to the recording manager for finalization. -/
def on_recording_stopped (rp : RecordingProcessor) (output_path : String)
    (delay_remaining : Nat) : RecordingProcessor × List RecAction :=
  let r := handle_recording_completed rp output_path delay_remaining
  if r.2.2 then (r.1, r.2.1)
  else (r.1, r.2.1 ++ [RecAction.finalize_recording output_path])

/-- Count the start requests in an action list, the deferred
(delay-pending) start counting as the one start it schedules. -/
def count_starts (acts : List RecAction) : Nat :=
  acts.countP fun a =>
    a == RecAction.start_request || a == RecAction.delayed_start

/-- C2: while recording, a transition whose triggered patterns include
`restart` sets both `delete_next_recording` and `restart_after_stop` and
issues an immediate stop (no sleep, no cue); on the next recording-completion
event the old file is deleted, exactly one new start is issued (immediately, or
deferred once when a scene-change delay is pending), the kept-file finalizer is
not invoked, and both flags end cleared — no `start_play` transition is
involved anywhere in this flow. -/
theorem restart_transition_then_completion (rp : RecordingProcessor)
    (patterns : List String) (path : String) (d1 d2 : Nat)
    (hres : "restart" ∈ patterns) :
    (process_transition rp patterns true d1).1.delete_next_recording = true ∧
    (process_transition rp patterns true d1).1.restart_after_stop = true ∧
    (process_transition rp patterns true d1).2 = [RecAction.stop_request] ∧
    count_starts
        (on_recording_stopped (process_transition rp patterns true d1).1 path
          d2).2 = 1 ∧
    RecAction.delete_file path ∈
      (on_recording_stopped (process_transition rp patterns true d1).1 path
        d2).2 ∧
    RecAction.finalize_recording path ∉
      (on_recording_stopped (process_transition rp patterns true d1).1 path
        d2).2 ∧
    (on_recording_stopped (process_transition rp patterns true d1).1 path
        d2).1.delete_next_recording = false ∧
    (on_recording_stopped (process_transition rp patterns true d1).1 path
        d2).1.restart_after_stop = false := by
  by_cases hd : 0 < d2 <;>
    simp [process_transition, hres, on_recording_stopped,
      handle_recording_completed, start_recording, stop_recording, count_starts,
      hd]

/-- C2 witness: clean processor, transition triggering exactly `restart`, no
scene-change delay pending. -/
theorem restart_transition_then_completion_witness :
    (process_transition ⟨false, false⟩ ["restart"] true 0).1.delete_next_recording
        = true ∧
    (process_transition ⟨false, false⟩ ["restart"] true 0).1.restart_after_stop
        = true ∧
    (process_transition ⟨false, false⟩ ["restart"] true 0).2 =
        [RecAction.stop_request] ∧
    count_starts
        (on_recording_stopped (process_transition ⟨false, false⟩ ["restart"]
          true 0).1 "out.mkv" 0).2 = 1 ∧
    RecAction.delete_file "out.mkv" ∈
      (on_recording_stopped (process_transition ⟨false, false⟩ ["restart"]
        true 0).1 "out.mkv" 0).2 ∧
    RecAction.finalize_recording "out.mkv" ∉
      (on_recording_stopped (process_transition ⟨false, false⟩ ["restart"]
        true 0).1 "out.mkv" 0).2 ∧
    (on_recording_stopped (process_transition ⟨false, false⟩ ["restart"]
        true 0).1 "out.mkv" 0).1.delete_next_recording = false ∧
    (on_recording_stopped (process_transition ⟨false, false⟩ ["restart"]
        true 0).1 "out.mkv" 0).1.restart_after_stop = false :=
  restart_transition_then_completion ⟨false, false⟩ ["restart"] "out.mkv" 0 0
    (by decide)

/-- C7: while recording, a transition whose triggered patterns include
`discard_play` (and not `restart`, which takes precedence and cannot co-occur
with `discard_play` in the registered pattern table) sets
`delete_next_recording`, clears `restart_after_stop`, and issues an immediate
stop with the `failed` cue; on the completion event for the stopped file, the
file at the delivered path is deleted and the recording manager's
finalize/keep handler is not invoked for it. -/
theorem discard_transition_then_completion (rp : RecordingProcessor)
    (patterns : List String) (path : String) (d1 d2 : Nat)
    (hdis : "discard_play" ∈ patterns) (hnores : "restart" ∉ patterns) :
    (process_transition rp patterns true d1).1.delete_next_recording = true ∧
    (process_transition rp patterns true d1).1.restart_after_stop = false ∧
    (process_transition rp patterns true d1).2 =
        [RecAction.play_sound "failed", RecAction.stop_request] ∧
    (on_recording_stopped (process_transition rp patterns true d1).1 path
        d2).2 = [RecAction.delete_file path] ∧
    RecAction.finalize_recording path ∉
      (on_recording_stopped (process_transition rp patterns true d1).1 path
        d2).2 := by
  simp [process_transition, hdis, hnores, on_recording_stopped,
    handle_recording_completed, start_recording, stop_recording]

/-- C7 witness: clean processor, transition triggering exactly `discard_play`. -/
theorem discard_transition_then_completion_witness :
    (process_transition ⟨false, false⟩ ["discard_play"] true
        0).1.delete_next_recording = true ∧
    (process_transition ⟨false, false⟩ ["discard_play"] true
        0).1.restart_after_stop = false ∧
    (process_transition ⟨false, false⟩ ["discard_play"] true 0).2 =
        [RecAction.play_sound "failed", RecAction.stop_request] ∧
    (on_recording_stopped (process_transition ⟨false, false⟩ ["discard_play"]
        true 0).1 "out.mkv" 0).2 = [RecAction.delete_file "out.mkv"] ∧
    RecAction.finalize_recording "out.mkv" ∉
      (on_recording_stopped (process_transition ⟨false, false⟩ ["discard_play"]
        true 0).1 "out.mkv" 0).2 :=
  discard_transition_then_completion ⟨false, false⟩ ["discard_play"] "out.mkv"
    0 0 (by decide) (by decide)

/-- A parsed log entry as the `LogService` delivers it: the `class`, `method`
and `date` fields read by `games/objects/log.py` (missing fields default to the
empty string, as with Python's `entry.get(..., "")`). -/
structure LogEntry where
  cls : String
  method : String
  date : String
deriving DecidableEq

/-- Python's substring test `needle in haystack`: the needle's character list
occurs contiguously inside the haystack's. -/
def str_contains (needle haystack : String) : Bool :=
  decide (needle.toList <:+: haystack.toList)

/-- `LogPattern` (`games/objects/log.py`): a (class-substring,
method-substring) pair. -/
structure LogPattern where
  class_name : String
  method_name : String
deriving DecidableEq

/-- `LogPattern.matches` specialized to a single entry (the classifier calls
`pattern.matches([entry])`): both substrings must occur in the entry's
class/method fields. -/
def LogPattern.matches_entry (p : LogPattern) (entry : LogEntry) : Bool :=
  str_contains p.class_name entry.cls && str_contains p.method_name entry.method

/-- `LogState` (`games/objects/log.py`): a named state with its log patterns. -/
structure LogState where
  name : String
  patterns : List LogPattern
deriving DecidableEq

/-- An entry counts for a state when any of the state's patterns matches it. -/
def LogState.matches_entry (st : LogState) (entry : LogEntry) : Bool :=
  st.patterns.any fun p => p.matches_entry entry

/-- The loop of `LogState.get_last_match_position`: scan the entries in order,
remembering the index of the most recent matching one. -/
def last_match_pos_aux (st : LogState) : List LogEntry → Nat → Int → Int
  | [], _, acc => acc
  | e :: rest, i, acc =>
    last_match_pos_aux st rest (i + 1)
      (if st.matches_entry e then (i : Int) else acc)

/-- `LogState.get_last_match_position`: index of the last matching entry, `-1`
when no entry matches. -/
def LogState.get_last_match_position (st : LogState)
    (log_entries : List LogEntry) : Int :=
  last_match_pos_aux st log_entries 0 (-1)

/-- `LogState.get_last_match_timestamp`: the `date` of the last matching
entry, or the empty string when no entry matches. -/
def LogState.get_last_match_timestamp (st : LogState)
    (log_entries : List LogEntry) : String :=
  let last_match_pos := st.get_last_match_position log_entries
  if 0 ≤ last_match_pos then (log_entries.getD last_match_pos.toNat
    ⟨"", "", ""⟩).date
  else ""

/-- One step of the scan in `LogGame.get_current_state`
(`games/objects/games.py`): a state strictly beating the best position so far
becomes the new winner. -/
def log_fold_step (context : List LogEntry) (acc : Option LogState × Int)
    (state : LogState) : Option LogState × Int :=
  let last_match_pos := state.get_last_match_position context
  if acc.2 < last_match_pos then (some state, last_match_pos) else acc

/-- `LogGame.get_current_state`: an empty window yields no state; otherwise the
state whose latest matching entry has the greatest index wins, starting from
no winner at position `-1`. -/
def log_get_current_state (states : List LogState)
    (context : List LogEntry) : Option LogState :=
  if context = [] then none
  else (states.foldl (log_fold_step context) (none, -1)).1

/-- Helper: the position scan never drops below `-1`. -/
theorem aux_ge_neg_one (st : LogState) (l : List LogEntry) (i : Nat) (acc : Int)
    (h : -1 ≤ acc) : -1 ≤ last_match_pos_aux st l i acc := by
  induction l generalizing i acc with
  | nil => simpa [last_match_pos_aux]
  | cons e rest ih =>
    simp only [last_match_pos_aux]
    apply ih
    by_cases hm : st.matches_entry e <;> simp [hm] <;> omega

/-- Helper: with no matching entry the scan returns its accumulator. -/
theorem aux_nomatch (st : LogState) (l : List LogEntry) (i : Nat) (acc : Int)
    (h : ∀ e ∈ l, st.matches_entry e = false) :
    last_match_pos_aux st l i acc = acc := by
  induction l generalizing i acc with
  | nil => rfl
  | cons e rest ih =>
    simp only [last_match_pos_aux, h e (List.mem_cons_self e rest), if_false,
      Bool.false_eq_true]
    exact ih (i + 1) acc fun e' he' => h e' (List.mem_cons_of_mem e he')

/-- Helper: a matching entry (or an already non-negative accumulator) makes the
scan return a non-negative position. -/
theorem aux_match_nonneg (st : LogState) (l : List LogEntry) (i : Nat)
    (acc : Int) (h : 0 ≤ acc ∨ ∃ e ∈ l, st.matches_entry e = true) :
    0 ≤ last_match_pos_aux st l i acc := by
  induction l generalizing i acc with
  | nil =>
    rcases h with h | ⟨e, he, _⟩
    · simpa [last_match_pos_aux]
    · exact absurd he (List.not_mem_nil e)
  | cons e rest ih =>
    simp only [last_match_pos_aux]
    by_cases hm : st.matches_entry e
    · exact ih (i + 1) _ (Or.inl (by simp [hm]))
    · rcases h with h | ⟨e', he', hm'⟩
      · exact ih (i + 1) _ (Or.inl (by simpa [hm] using h))
      · rcases List.mem_cons.mp he' with rfl | he'
        · exact absurd hm' (by simpa using hm)
        · exact ih (i + 1) _ (Or.inr ⟨e', he', hm'⟩)

/-- Helper: a state's last-match position is `-1` exactly when none of the
window's entries matches it. -/
theorem pos_eq_neg_one_iff (st : LogState) (context : List LogEntry) :
    st.get_last_match_position context = -1 ↔
      ∀ e ∈ context, st.matches_entry e = false := by
  constructor
  · intro h e he
    by_contra hm
    have : 0 ≤ st.get_last_match_position context :=
      aux_match_nonneg st context 0 (-1)
        (Or.inr ⟨e, he, by simpa using hm⟩)
    omega
  · intro h
    exact aux_nomatch st context 0 (-1) h

/-- Helper: when every remaining state's position is at most the accumulator's,
the winner scan is a fixed point. -/
theorem log_fold_fix (context : List LogEntry) (states : List LogState)
    (acc : Option LogState × Int)
    (h : ∀ st ∈ states, st.get_last_match_position context ≤ acc.2) :
    states.foldl (log_fold_step context) acc = acc := by
  induction states with
  | nil => rfl
  | cons st rest ih =>
    have hstep : log_fold_step context acc st = acc := by
      unfold log_fold_step
      have := h st (List.mem_cons_self st rest)
      simp only [not_lt.mpr this, if_false]
    simp only [List.foldl_cons, hstep]
    exact ih fun st' hst' => h st' (List.mem_cons_of_mem st hst')

/-- Helper: the winner scan's invariant — the final best position dominates
every scanned state's position and the starting accumulator, and the final
winner is either the untouched accumulator or a scanned state holding exactly
its own position. -/
theorem log_fold_inv (context : List LogEntry) (states : List LogState)
    (acc : Option LogState × Int) :
    (∀ st ∈ states,
        st.get_last_match_position context ≤
          (states.foldl (log_fold_step context) acc).2) ∧
    acc.2 ≤ (states.foldl (log_fold_step context) acc).2 ∧
    (states.foldl (log_fold_step context) acc = acc ∨
      ∃ st ∈ states,
        (states.foldl (log_fold_step context) acc).1 = some st ∧
          (states.foldl (log_fold_step context) acc).2 =
            st.get_last_match_position context) := by
  induction states generalizing acc with
  | nil => exact ⟨by simp, le_refl _, Or.inl rfl⟩
  | cons st rest ih =>
    obtain ⟨ih1, ih2, ih3⟩ := ih (log_fold_step context acc st)
    have hstep2 : acc.2 ≤ (log_fold_step context acc st).2 := by
      unfold log_fold_step
      by_cases hlt : acc.2 < st.get_last_match_position context
      · simp only [hlt, if_true]
        omega
      · simp [hlt]
    have hstpos : st.get_last_match_position context ≤
        (log_fold_step context acc st).2 := by
      unfold log_fold_step
      by_cases hlt : acc.2 < st.get_last_match_position context
      · simp [hlt]
      · simp only [hlt, if_false]
        omega
    refine ⟨?_, ?_, ?_⟩
    · intro st' hst'
      rcases List.mem_cons.mp hst' with rfl | hst'
      · exact le_trans hstpos ih2
      · exact ih1 st' hst'
    · exact le_trans hstep2 ih2
    · rcases ih3 with heq | ⟨st'', hst'', h1, h2⟩
      · rw [List.foldl_cons, heq]
        unfold log_fold_step
        by_cases hlt : acc.2 < st.get_last_match_position context
        · exact Or.inr ⟨st, List.mem_cons_self st rest, by simp [hlt]⟩
        · exact Or.inl (by simp [hlt])
      · exact Or.inr ⟨st'', List.mem_cons_of_mem st hst'',
          by rw [List.foldl_cons]; exact ⟨h1, h2⟩⟩

/-- C5: on a non-empty chronologically ordered window the log classifier
returns `none` exactly when no state's pattern matches any entry, and any
returned state is a registered state whose last-match index is maximal among
all states; concretely, a window with an earlier `Playing`-matching entry and a
later `Result`-matching entry classifies as `Result`. -/
theorem log_latest_match_wins :
    (∀ (states : List LogState) (context : List LogEntry), context ≠ [] →
        (log_get_current_state states context = none ↔
          ∀ st ∈ states, ∀ e ∈ context, st.matches_entry e = false)) ∧
    (∀ (states : List LogState) (context : List LogEntry) (st : LogState),
        log_get_current_state states context = some st →
          st ∈ states ∧
            ∀ st' ∈ states,
              st'.get_last_match_position context ≤
                st.get_last_match_position context) ∧
    log_get_current_state
        [⟨"Playing", [⟨"BMSPlayer", "create"⟩]⟩,
         ⟨"Result", [⟨"MusicResult", "prepare"⟩]⟩]
        [⟨"bms.player.beatoraja.play.BMSPlayer", "create", "10:00"⟩,
         ⟨"bms.player.beatoraja.result.MusicResult", "lambda$prepare$0",
          "10:05"⟩] =
      some ⟨"Result", [⟨"MusicResult", "prepare"⟩]⟩ := by
  refine ⟨?_, ?_, by decide⟩
  · intro states context hne
    unfold log_get_current_state
    rw [if_neg hne]
    constructor
    · intro hnone st hst e he
      obtain ⟨h1, -, h3⟩ := log_fold_inv context states (none, -1)
      rcases h3 with heq | ⟨st'', hst'', hsome'', hpos''⟩
      · have hle := h1 st hst
        rw [heq] at hle
        simp only at hle
        have hge : -1 ≤ st.get_last_match_position context :=
          aux_ge_neg_one st context 0 (-1) (by omega)
        exact (pos_eq_neg_one_iff st context).mp (le_antisymm hle hge) e he
      · rw [hsome''] at hnone
        exact absurd hnone (by simp)
    · intro hall
      have hfix : states.foldl (log_fold_step context) (none, -1) = (none, -1) := by
        apply log_fold_fix
        intro st hst
        have hm1 : st.get_last_match_position context = -1 :=
          (pos_eq_neg_one_iff st context).mpr (hall st hst)
        simp [hm1]
      rw [hfix]
  · intro states context st hsome
    unfold log_get_current_state at hsome
    by_cases hne : context = []
    · rw [if_pos hne] at hsome
      exact absurd hsome (by simp)
    · rw [if_neg hne] at hsome
      obtain ⟨h1, -, h3⟩ := log_fold_inv context states (none, -1)
      rcases h3 with heq | ⟨st'', hst'', hsome'', hpos''⟩
      · rw [heq] at hsome
        exact absurd hsome (by simp)
      · rw [hsome''] at hsome
        obtain rfl : st'' = st := Option.some.inj hsome
        exact ⟨hst'', fun st' hst' => hpos'' ▸ h1 st' hst'⟩

/-- A state transition as `core/interfaces/detection.py` defines it, without
the wall-clock timestamp and the game handle (no claim depends on them). -/
structure StateTransition where
  from_state : Option String
  to_state : String
  triggered_patterns : List String
deriving DecidableEq

/-- The `StateContext` of `engine/state_manager.py`, minus the game handle:
whether a game is active and, for log games, its state table are passed to the
operations explicitly. -/
structure StateContext where
  current_state : Option String
  previous_state : Option String
  last_playing_timestamp : Option String
  machine : StateMachine
deriving DecidableEq

/-- The context a fresh `StateManager` holds: empty three-entry machine with
the registered pattern table, no states, no timestamp. -/
def initial_state_context : StateContext :=
  { current_state := none, previous_state := none,
    last_playing_timestamp := none,
    machine := (StateMachine.mk0 3).add_patterns transition_patterns }

/-- `LogGame.get_playing_state_timestamp` (`games/objects/games.py`): the
timestamp of the latest entry matching the game's `Playing` state; `None` when
the window is empty, the game has no `Playing` state, or nothing matches (the
empty timestamp string is falsy in Python). -/
def get_playing_state_timestamp (states : List LogState)
    (context : List LogEntry) : Option String :=
  if context = [] then none
  else
    match states.find? (fun st => st.name == "Playing") with
    | none => none
    | some playing_state =>
      let timestamp := playing_state.get_last_match_timestamp context
      if timestamp = "" then none else some timestamp

/-- `StateManager._should_restart_for_timestamp_change`, with the game's
log-state table and the tick's log entries passed explicitly (`is_log` is the
`isinstance(current_game, LogGame)` check): a restart is due when a Playing
timestamp exists, one is on record, and the two differ. -/
def should_restart_for_timestamp_change (is_log : Bool)
    (states : List LogState) (ctx : StateContext)
    (entries : List LogEntry) : Bool :=
  if is_log = false then false
  else if entries = [] then false
  else
    match get_playing_state_timestamp states entries with
    | none => false
    | some current_timestamp =>
      match ctx.last_playing_timestamp with
      | none => false
      | some last => current_timestamp != last

/-- `StateManager._update_playing_timestamp`: for a log game with a non-empty
window and a Playing timestamp, record that timestamp. -/
def update_playing_timestamp (is_log : Bool) (states : List LogState)
    (ctx : StateContext) (entries : List LogEntry) : StateContext :=
  if is_log = false then ctx
  else if entries = [] then ctx
  else
    match get_playing_state_timestamp states entries with
    | some t => { ctx with last_playing_timestamp := some t }
    | none => ctx

/-- `StateManager._create_transition`: record the Playing timestamp when a log
game transitions to `Playing`, read the machine's last matches, and advance
`previous_state`/`current_state`. -/
def create_transition (is_log : Bool) (states : List LogState)
    (ctx : StateContext) (new_state : String) (entries : List LogEntry) :
    StateContext × Option StateTransition :=
  let ctx :=
    if new_state = "Playing" ∧ is_log = true then
      update_playing_timestamp is_log states ctx entries
    else ctx
  let transition : StateTransition :=
    { from_state := ctx.current_state, to_state := new_state,
      triggered_patterns := ctx.machine.get_last_matches }
  ({ ctx with
      previous_state := ctx.current_state,
      current_state := some new_state },
   some transition)

/-- `StateManager.update_state`, with `has_game` standing for
`self.context.current_game` being set: the LogGame Playing-to-Playing
timestamp branch synthesizes a `restart` transition directly; otherwise only a
changed non-`None` state is pushed and turned into a transition. -/
def update_state (is_log : Bool) (states : List LogState) (has_game : Bool)
    (ctx : StateContext) (new_state : Option String)
    (entries : List LogEntry) : StateContext × Option StateTransition :=
  if has_game = false then (ctx, none)
  else if ctx.current_state = some "Playing" ∧ new_state = some "Playing" ∧
      is_log = true ∧
      should_restart_for_timestamp_change is_log states ctx entries = true then
    let ctx1 := { ctx with machine := ctx.machine.push_state "Playing" }
    let transition : StateTransition :=
      { from_state := ctx.current_state, to_state := "Playing",
        triggered_patterns := ["restart"] }
    let ctx2 := { ctx1 with
        previous_state := ctx1.current_state,
        current_state := some "Playing" }
    let ctx3 := update_playing_timestamp is_log states ctx2 entries
    (ctx3, some transition)
  else
    match new_state with
    | none => (ctx, none)
    | some ns =>
      if some ns ≠ ctx.current_state then
        create_transition is_log states
          { ctx with machine := ctx.machine.push_state ns } ns entries
      else (ctx, none)

/-- The per-tick pixel-game pipeline of
`DetectionCoordinator.detect_and_control` (`engine/coordinator.py`, lines
102–116): run the debounce detector on the tick's raw pixel classification,
then hand the detector's result to `StateManager.update_state` (pixel games
carry no log-state table and no log entries). -/
def coordinator_tick_pixel (d : BaseStateDetector) (ctx : StateContext)
    (raw : Option String) :
    BaseStateDetector × StateContext × Option StateTransition :=
  let p := detect_state d raw
  let q := update_state false [] true ctx p.1 []
  (p.2, q.1, q.2)

/-- C6: for a log game whose confirmed state is `Playing`, when the tick's log
window carries a Playing timestamp different from the recorded one (in
particular any newer one), `update_state` produces a forced repeat transition
from `Playing` to `Playing` whose triggered patterns are exactly `[restart]`,
records the window's latest Playing-match timestamp, and a re-check of the
restart condition on the same window afterwards is negative, so the same change
is not detected twice. -/
theorem log_playing_timestamp_restart (states : List LogState)
    (ctx : StateContext) (entries : List LogEntry) (t0 t1 : String)
    (hcur : ctx.current_state = some "Playing")
    (hlast : ctx.last_playing_timestamp = some t0)
    (hts : get_playing_state_timestamp states entries = some t1)
    (hne : t1 ≠ t0) :
    (update_state true states true ctx (some "Playing") entries).2 =
      some { from_state := some "Playing", to_state := "Playing",
             triggered_patterns := ["restart"] } ∧
    (update_state true states true ctx (some "Playing")
        entries).1.last_playing_timestamp = some t1 ∧
    should_restart_for_timestamp_change true states
        (update_state true states true ctx (some "Playing") entries).1 entries
      = false := by
  have hene : entries ≠ [] := by
    intro h
    rw [h] at hts
    simp [get_playing_state_timestamp] at hts
  have hsr : should_restart_for_timestamp_change true states ctx entries
      = true := by
    simp [should_restart_for_timestamp_change, hene, hts, hlast, hne]
  refine ⟨?_, ?_, ?_⟩ <;>
    simp [update_state, hcur, hlast, hne, hsr, update_playing_timestamp, hene,
      hts, should_restart_for_timestamp_change]

/-- C6 witness: a BMS-style Playing state, a recorded timestamp `10:00`, and a
window whose latest Playing-matching entry carries `10:05`. -/
theorem log_playing_timestamp_restart_witness :
    (update_state true [⟨"Playing", [⟨"BMSPlayer", "create"⟩]⟩] true
        ⟨some "Playing", none, some "10:00",
          (StateMachine.mk0 3).add_patterns transition_patterns⟩
        (some "Playing")
        [⟨"bms.player.beatoraja.play.BMSPlayer", "create", "10:05"⟩]).2 =
      some { from_state := some "Playing", to_state := "Playing",
             triggered_patterns := ["restart"] } ∧
    (update_state true [⟨"Playing", [⟨"BMSPlayer", "create"⟩]⟩] true
        ⟨some "Playing", none, some "10:00",
          (StateMachine.mk0 3).add_patterns transition_patterns⟩
        (some "Playing")
        [⟨"bms.player.beatoraja.play.BMSPlayer", "create",
          "10:05"⟩]).1.last_playing_timestamp = some "10:05" ∧
    should_restart_for_timestamp_change true
        [⟨"Playing", [⟨"BMSPlayer", "create"⟩]⟩]
        (update_state true [⟨"Playing", [⟨"BMSPlayer", "create"⟩]⟩] true
          ⟨some "Playing", none, some "10:00",
            (StateMachine.mk0 3).add_patterns transition_patterns⟩
          (some "Playing")
          [⟨"bms.player.beatoraja.play.BMSPlayer", "create", "10:05"⟩]).1
        [⟨"bms.player.beatoraja.play.BMSPlayer", "create", "10:05"⟩]
      = false :=
  log_playing_timestamp_restart [⟨"Playing", [⟨"BMSPlayer", "create"⟩]⟩]
    ⟨some "Playing", none, some "10:00",
      (StateMachine.mk0 3).add_patterns transition_patterns⟩
    [⟨"bms.player.beatoraja.play.BMSPlayer", "create", "10:05"⟩]
    "10:00" "10:05" rfl rfl (by decide) (by decide)

/-- C8: on the coordinator's pixel path a raw classification of `None` is
tracked as a run by the debounce detector, but once the run reaches the
threshold the confirmed value is still `None`, and `StateManager.update_state`
drops it: no `Unknown` state is pushed into the history and no transition is
produced (the legacy `DetectionEngine._maybe_confirm_state`, `engine.py` lines
263–266, is the code that maps the confirmed `None` run to `Unknown` as the
claim describes). -/
theorem coordinator_drops_confirmed_none :
    (let s1 := coordinator_tick_pixel (BaseStateDetector.mk0 2)
        initial_state_context none
     let s2 := coordinator_tick_pixel s1.1 s1.2.1 none
     s1.2.2 = none ∧
     s2.1.consecutive_detections = 2 ∧
     s2.1.detection_threshold = 2 ∧
     s2.2.2 = none ∧
     s2.2.1.machine.history = [] ∧
     s2.2.1.current_state = none ∧
     "Unknown" ∉ s2.2.1.machine.history) := by
  decide

/-- One section of the `[scenes]` table: state name to scene name, in
configuration order. -/
abbrev SceneSection := List (String × String)

/-- The `AppSettings.scenes` mapping (`config/settings.py`): section name
(game shortname or `Default`) to its state-to-scene section. The default
constructed value is the empty mapping (`__post_init__` sets `{}`). -/
abbrev ScenesConfig := List (String × SceneSection)

/-- Python `m[k]`/`k in m` lookup on a scene section. -/
def section_find (m : SceneSection) (k : String) : Option String :=
  (m.find? fun e => e.1 == k).map Prod.snd

/-- Python `scenes[k]`/`k in scenes` lookup on the scenes mapping. -/
def cfg_find (cfg : ScenesConfig) (k : String) : Option SceneSection :=
  (cfg.find? fun e => e.1 == k).map Prod.snd

/-- `AppSettings.get_scene_name`: first the (game, state) entry; otherwise the
line `if state in self.scenes["Default"]` indexes the `Default` section
unconditionally — a `KeyError` when that section is missing; otherwise, the
`Default` section being known to exist, `self.scenes["Default"]["Default"]` is
returned — a `KeyError` when that key is missing. The function's trailing
`return None` is unreachable. -/
def get_scene_name (scenes : ScenesConfig) (game state : String) :
    Except String (Option String) :=
  match (cfg_find scenes game).bind
      (fun game_section => section_find game_section state) with
  | some v => Except.ok (some v)
  | none =>
    match cfg_find scenes "Default" with
    | none => Except.error "KeyError: Default"
    | some default_section =>
      match section_find default_section state with
      | some v => Except.ok (some v)
      | none =>
        match section_find default_section "Default" with
        | some v => Except.ok (some v)
        | none => Except.error "KeyError: Default"

/-- Modelled from the spec's words, for comparison with `get_scene_name` only:
the resolution chain the claim describes — the (game, state) entry, then the
(game, Default) entry, then the global Default entry. -/
def get_scene_name_claimed (scenes : ScenesConfig) (game state : String) :
    Option String :=
  match (cfg_find scenes game).bind
      (fun game_section => section_find game_section state) with
  | some v => some v
  | none =>
    match (cfg_find scenes game).bind
        (fun game_section => section_find game_section "Default") with
    | some v => some v
    | none =>
      (cfg_find scenes "Default").bind
        (fun default_section => section_find default_section "Default")

/-- The one effect of `SceneProcessor`: an OBS scene-switch request. -/
inductive SceneAction where
  | set_scene (scene : String) : SceneAction
deriving DecidableEq

/-- `SceneProcessor.process_transition`, with the OBS-reported current scene
passed in: resolve the scene for (game shortname, to-state); the Python guard
`if scene_name:` demands a truthy value — not `None` and not the empty string
(only the latter case is live, `get_scene_name` never returning `None`) —
before switching, and a switch happens only when the resolved scene differs
from the current one; a `KeyError` escaping `get_scene_name` aborts the call. -/
def scene_process_transition (scenes : ScenesConfig)
    (game_shortname to_state current_scene : String) :
    Except String (List SceneAction) :=
  match get_scene_name scenes game_shortname to_state with
  | Except.error e => Except.error e
  | Except.ok scene_name =>
    match scene_name with
    | some s =>
      if s ≠ "" then
        if current_scene ≠ s then Except.ok [SceneAction.set_scene s]
        else Except.ok []
      else Except.ok []
    | none => Except.ok []

/-- `SceneProcessor.process_game_change` for a lost game focus (`game is
None`): resolve `("", "Default")` and switch when the result is truthy
(`if default_scene:` — not `None`, not empty) and differs from the current
scene. -/
def scene_process_game_change_none (scenes : ScenesConfig)
    (current_scene : String) : Except String (List SceneAction) :=
  match get_scene_name scenes "" "Default" with
  | Except.error e => Except.error e
  | Except.ok default_scene =>
    match default_scene with
    | some s =>
      if s ≠ "" then
        if current_scene ≠ s then Except.ok [SceneAction.set_scene s]
        else Except.ok []
      else Except.ok []
    | none => Except.ok []

/-- C9 counterexample: with the configuration
`{g: {Default: X}, Default: {s: Y}}`, resolving (g, s) by the claimed chain
gives the game's own Default entry `X`, but the code returns `Y` — it falls
back to the global section's entry for the state, never to the game's
`Default` entry. -/
theorem scene_fallback_order_cex :
    get_scene_name_claimed [("g", [("Default", "X")]), ("Default", [("s", "Y")])]
        "g" "s" = some "X" ∧
    get_scene_name [("g", [("Default", "X")]), ("Default", [("s", "Y")])]
        "g" "s" = Except.ok (some "Y") ∧
    ("X" : String) ≠ "Y" :=
  ⟨rfl, rfl, by decide⟩

/-- C9 (amended): the scene for a transition is resolved by first looking up
the (game, state) entry, then the (Default, state) entry, then the
(Default, Default) entry — not the (game, Default) entry; a truthy (non-empty)
resolved scene is applied exactly when it differs from the currently applied
scene, and an empty-string resolution produces no switch (the truthiness
guard's `None` case is unreachable). -/
theorem scene_resolution_amended :
    (∀ (scenes : ScenesConfig) (game state v : String),
        (cfg_find scenes game).bind (fun gs => section_find gs state) = some v →
        get_scene_name scenes game state = Except.ok (some v)) ∧
    (∀ (scenes : ScenesConfig) (game state v : String),
        (cfg_find scenes game).bind (fun gs => section_find gs state) = none →
        (cfg_find scenes "Default").bind (fun ds => section_find ds state) =
          some v →
        get_scene_name scenes game state = Except.ok (some v)) ∧
    (∀ (scenes : ScenesConfig) (game state v : String) (ds : SceneSection),
        (cfg_find scenes game).bind (fun gs => section_find gs state) = none →
        cfg_find scenes "Default" = some ds →
        section_find ds state = none →
        section_find ds "Default" = some v →
        get_scene_name scenes game state = Except.ok (some v)) ∧
    (∀ (scenes : ScenesConfig) (game state current_scene v : String),
        get_scene_name scenes game state = Except.ok (some v) → v ≠ "" →
        scene_process_transition scenes game state current_scene =
          Except.ok
            (if current_scene ≠ v then [SceneAction.set_scene v] else [])) ∧
    (∀ (scenes : ScenesConfig) (game state current_scene : String),
        get_scene_name scenes game state = Except.ok (some "") →
        scene_process_transition scenes game state current_scene =
          Except.ok []) := by
  refine ⟨?_, ?_, ?_, ?_, ?_⟩
  · intro scenes game state v h
    simp [get_scene_name, h]
  · intro scenes game state v h1 h2
    obtain ⟨ds, hds, hv⟩ := Option.bind_eq_some.mp h2
    simp [get_scene_name, h1, hds, hv]
  · intro scenes game state v ds h1 h2 h3 h4
    simp [get_scene_name, h1, h2, h3, h4]
  · intro scenes game state current_scene v h hv
    by_cases hc : current_scene = v <;>
      simp [scene_process_transition, h, hv, hc]
  · intro scenes game state current_scene h
    simp [scene_process_transition, h]

/-- C10: `get_scene_name` raises `KeyError` instead of returning a scene name
or `None` — on the default empty scenes mapping (no `Default` section, line
`if state in self.scenes["Default"]`), and on a `Default` section lacking a
`Default` key (line `return self.scenes["Default"]["Default"]`); through
`SceneProcessor` the exception escapes `process_transition` and
`process_game_change`, aborting the detection tick. -/
theorem get_scene_name_raises_on_missing_default :
    get_scene_name [] "IIDX31" "Playing" = Except.error "KeyError: Default" ∧
    get_scene_name [("Default", [("Playing", "BMS Play")])] "BMS" "Select" =
      Except.error "KeyError: Default" ∧
    scene_process_transition [] "IIDX31" "Playing" "Main" =
      Except.error "KeyError: Default" ∧
    scene_process_game_change_none [] "Main" =
      Except.error "KeyError: Default" :=
  ⟨rfl, rfl, rfl, rfl⟩
